import Mathlib

/-!
Verification of the AID Commander v4.1 multi-layer validation consensus
engine and hallucination detector, shallowly embedded from
`aid_commander_v41/validation/multi_layer/validation_engine.py`,
`aid_commander_v41/validation/hallucination/detection_engine.py` and
`aid_commander_v41/knowledge_graph/graphiti/temporal_engine.py`.

Python floats are modelled as rationals (ℚ); the async external calls
(Neo4j queries, RAG searches, memory lookups, re-validation runs) are
modelled as explicit parameters carrying their returned data, so every
definition is a pure function of the source's actual computation.
-/

namespace AID41

/-- `ValidationLayer` enum from validation_engine.py. -/
inductive ValidationLayer where
  | structural
  | temporal
  | documentation
  | memory
  | typeSafety
  | consensus
deriving DecidableEq, Repr

/-- `ValidationSeverity` enum from validation_engine.py. -/
inductive ValidationSeverity where
  | critical
  | high
  | medium
  | low
  | info
deriving DecidableEq, Repr

/-- `ValidationIssue` dataclass from validation_engine.py (the `metadata`
bag is not used by any property we verify and is omitted). -/
structure ValidationIssue where
  layer : ValidationLayer
  severity : ValidationSeverity
  issueType : String
  description : String
  codeLocation : Option String := none
  suggestion : Option String := none
  confidence : ℚ := 1
deriving DecidableEq, Repr

/-- `LayerValidationResult` dataclass from validation_engine.py.  The
wall-clock `processing_time` field is outside the model (it is
measurement, not computation) and is omitted. -/
structure LayerValidationResult where
  layer : ValidationLayer
  confidence : ℚ
  issues : List ValidationIssue
  validatedItems : List String
deriving DecidableEq, Repr

/-- Layer weights from `MultiLayerValidationEngine._calculate_final_result`
(`layer_weights` dict, keyed by the enum's string value; unknown keys get
weight 0.0 via `layer_weights.get(layer_name, 0.0)`). -/
def layerWeight (layerName : String) : ℚ :=
  if layerName = "structural" then 25/100
  else if layerName = "temporal" then 20/100
  else if layerName = "documentation" then 20/100
  else if layerName = "memory" then 15/100
  else if layerName = "type_safety" then 15/100
  else if layerName = "consensus" then 5/100
  else 0

/-- The weighted-consensus computation of
`MultiLayerValidationEngine._calculate_final_result`: iterate over the
`layer_results` items accumulating `weighted_score += confidence * weight`
and `total_weight += weight`, then divide (0.0 when the total weight is
not positive). -/
def consensusScoreOf (layerResults : List (String × ℚ)) : ℚ :=
  let weightedScore := (layerResults.map fun p => p.2 * layerWeight p.1).sum
  let totalWeight := (layerResults.map fun p => layerWeight p.1).sum
  if 0 < totalWeight then weightedScore / totalWeight else 0

/-- The fail-closed conversion in
`MultiLayerValidationEngine._run_validation_layer`: a validator call that
raises is converted into a result with confidence 0.0 and a single
critical `validation_error` issue whose description embeds the exception
text; a successful call's result is passed through. -/
def runValidationLayer (layer : ValidationLayer)
    (outcome : Except String LayerValidationResult) : LayerValidationResult :=
  match outcome with
  | .ok r => r
  | .error e =>
      { layer := layer
        confidence := 0
        issues := [{ layer := layer
                     severity := .critical
                     issueType := "validation_error"
                     description := "Layer validation failed: " ++ e }]
        validatedItems := [] }

/-- The per-layer outcome of the concurrent phase of
`validate_code_generation`: the task may itself surface an exception to
`asyncio.gather(..., return_exceptions=True)` (outer `Except`), or
complete with the validator result / validator exception handled by
`_run_validation_layer` (inner `Except`). -/
def LayerOutcome : Type := Except String (Except String LayerValidationResult)

/-- Step 3 of `validate_code_generation`: each gathered outcome that is an
`Exception` instance becomes a confidence-0.0 result with a single
critical `layer_failure` issue; otherwise the `_run_validation_layer`
result is recorded.  Each layer is processed independently. -/
def processLayerOutcome (layer : ValidationLayer) (o : LayerOutcome) :
    LayerValidationResult :=
  match o with
  | .error e =>
      { layer := layer
        confidence := 0
        issues := [{ layer := layer
                     severity := .critical
                     issueType := "layer_failure"
                     description := "Validation layer failed: " ++ e }]
        validatedItems := [] }
  | .ok inner => runValidationLayer layer inner

/-- The processed-results map built by the orchestration for the five
non-consensus layers: a pointwise application of `processLayerOutcome`. -/
def processedResults (outcomes : List (ValidationLayer × LayerOutcome)) :
    List (ValidationLayer × LayerValidationResult) :=
  outcomes.map fun p => (p.1, processLayerOutcome p.1 p.2)

/-- `Pattern` dataclass from
`knowledge_graph/graphiti/temporal_engine.py` (fields not used by the
verified properties are omitted). -/
structure Pattern where
  id : String
  name : String
  framework : String
  patternType : String
  codeTemplate : String
  successRate : ℚ
  usageCount : ℕ
deriving DecidableEq, Repr

/-- `AIDGraphitiEngine.update_pattern_usage`, embedded from its Cypher
query.  The query's single `SET` clause
`SET p.usage_count = p.usage_count + 1, p.last_used = datetime(),
p.success_rate = (p.success_rate * p.usage_count + outcome) / (p.usage_count + 1)`
evaluates every right-hand side against the pre-update property values
(Cypher reads within one clause see the state before the clause), so the
new rate is computed from the old count.  Returns the updated pattern and
the `new_success_rate` value the function returns. -/
def updatePatternUsage (p : Pattern) (success : Bool) : Pattern × ℚ :=
  let newRate : ℚ :=
    if success then (p.successRate * p.usageCount + 1) / (p.usageCount + 1)
    else (p.successRate * p.usageCount) / (p.usageCount + 1)
  ({ p with usageCount := p.usageCount + 1, successRate := newRate }, newRate)

/-- One entry of `CodeAnalysis.api_calls`: the dict
`{"object": ..., "method": ..., "full_call": ...}` built for each
attribute-style call site (`detect_hallucination`'s analyzer also adds a
`"line"` key). -/
structure ApiCall where
  object : String
  method : String
  fullCall : String
  line : Option ℕ := none
deriving DecidableEq, Repr

/-- The AST node shapes `_analyze_code_structure` dispatches on while
walking the parse tree (`ast.walk`); every other node kind is `other`.
`callAttr` carries the unparsed receiver expression and the attribute
name of an `obj.method(...)` call; `callName` a bare `f(...)` call. -/
inductive AstNode where
  | importNames (names : List String)
  | importFrom (module : Option String) (names : List String)
  | classDef (name : String)
  | functionDef (name : String)
  | callAttr (objName : String) (methodName : String)
  | callName (funcName : String)
  | other
deriving DecidableEq, Repr

/-- `CodeAnalysis` dataclass from validation_engine.py; `astWalk` stands
for the retained `ast_tree` (as the node-shape sequence `ast.walk`
yields). -/
structure CodeAnalysis where
  imports : List String
  classes : List String
  methods : List String
  functionCalls : List String
  apiCalls : List ApiCall
  frameworks : List String
  patterns : List String
  astWalk : Option (List AstNode) := none
deriving DecidableEq, Repr

/-- The `imports` list built by the walk loop of
`MultiLayerValidationEngine._analyze_code_structure`: `ast.Import` nodes
contribute each alias name, `ast.ImportFrom` nodes with a module
contribute one `from M import a, b` string. -/
def collectImports : List AstNode → List String
  | [] => []
  | .importNames names :: rest => names ++ collectImports rest
  | .importFrom (some m) names :: rest =>
      ("from " ++ m ++ " import " ++ String.intercalate ", " names)
        :: collectImports rest
  | _ :: rest => collectImports rest

/-- Declared class names collected by the walk loop. -/
def collectClasses : List AstNode → List String
  | [] => []
  | .classDef n :: rest => n :: collectClasses rest
  | _ :: rest => collectClasses rest

/-- Declared function names collected by the walk loop (the source stores
them in the `methods` list). -/
def collectMethods : List AstNode → List String
  | [] => []
  | .functionDef n :: rest => n :: collectMethods rest
  | _ :: rest => collectMethods rest

/-- The `function_calls` list: `obj.method` for attribute calls, the bare
name for name calls. -/
def collectFunctionCalls : List AstNode → List String
  | [] => []
  | .callAttr o m :: rest => (o ++ "." ++ m) :: collectFunctionCalls rest
  | .callName f :: rest => f :: collectFunctionCalls rest
  | _ :: rest => collectFunctionCalls rest

/-- The `api_calls` list: one record per attribute-style call site. -/
def collectApiCalls : List AstNode → List ApiCall
  | [] => []
  | .callAttr o m :: rest =>
      { object := o, method := m, fullCall := o ++ "." ++ m }
        :: collectApiCalls rest
  | _ :: rest => collectApiCalls rest

/-- Substring containment, modelling Python's `'sub' in s`. -/
def strContains (s pat : String) : Bool :=
  s.data.tails.any fun t => pat.data.isPrefixOf t

/-- Framework inference from imports in `_analyze_code_structure`: for
each import string, the first matching substring of
`pydantic_ai`/`fastapi`/`django` appends the corresponding framework
name. -/
def detectFrameworks : List String → List String
  | [] => []
  | imp :: rest =>
      if strContains imp "pydantic_ai" then
        "PydanticAI" :: detectFrameworks rest
      else if strContains imp "fastapi" then
        "FastAPI" :: detectFrameworks rest
      else if strContains imp "django" then
        "Django" :: detectFrameworks rest
      else detectFrameworks rest

/-- `MultiLayerValidationEngine._analyze_code_structure`.  The call to
`ast.parse` is the parameter: `.error` is the exception path of the
surrounding `try` (any parse failure yields an analysis with every field
empty instead of propagating), `.ok` carries the node shapes `ast.walk`
yields for the parsed tree.  Patterns are derived from the api calls as
`"obj.method pattern"`. -/
def analyzeCodeStructure (parsed : Except String (List AstNode)) :
    CodeAnalysis :=
  match parsed with
  | .error _ =>
      { imports := [], classes := [], methods := [], functionCalls := [],
        apiCalls := [], frameworks := [], patterns := [], astWalk := none }
  | .ok nodes =>
      let imports := collectImports nodes
      let apiCalls := collectApiCalls nodes
      { imports := imports
        classes := collectClasses nodes
        methods := collectMethods nodes
        functionCalls := collectFunctionCalls nodes
        apiCalls := apiCalls
        frameworks := detectFrameworks imports
        patterns := apiCalls.map fun c =>
          c.object ++ "." ++ c.method ++ " pattern"
        astWalk := some nodes }

/-- `StructuralValidator.validate`.  The Neo4j lookup
`_validate_api_call` is the parameter `apiExists`, returning the
`exists` flag and the optional `suggestion` of the source's query result.
Confidence is the fraction of call sites that resolve, or the neutral
0.8 when there is no analysis or no api calls. -/
def structuralValidate (apiExists : ApiCall → Bool × Option String)
    (framework : String) (analysis : Option CodeAnalysis) :
    LayerValidationResult :=
  let issues := match analysis with
    | none => []
    | some a => a.apiCalls.filterMap fun c =>
        if (apiExists c).1 then none
        else some
          { layer := ValidationLayer.structural
            severity := ValidationSeverity.critical
            issueType := "non_existent_api"
            description :=
              "API " ++ c.fullCall ++ " not found in " ++ framework
            suggestion := some ("Use validated alternative: "
              ++ ((apiExists c).2.getD "Unknown")) }
  let validatedItems := match analysis with
    | none => []
    | some a => a.apiCalls.filterMap fun c =>
        if (apiExists c).1 then some (c.object ++ "." ++ c.method)
        else none
  let confidence : ℚ := match analysis with
    | some a =>
        if a.apiCalls ≠ [] then
          (validatedItems.length : ℚ) / (a.apiCalls.length : ℚ)
        else 8/10
    | none => 8/10
  { layer := ValidationLayer.structural
    confidence := confidence
    issues := issues
    validatedItems := validatedItems }

/-- Lower-casing of a string, character by character (Python
`str.lower()` on the ASCII identifiers involved). -/
def lowerString (s : String) : String :=
  String.mk (s.data.map Char.toLower)

/-- Whitespace splitter modelling Python `str.split()` (split on
whitespace runs, no empty words). -/
def splitWsAux : List Char → List Char → List (List Char)
  | [], acc => [acc.reverse]
  | c :: rest, acc =>
      if c.isWhitespace then acc.reverse :: splitWsAux rest []
      else splitWsAux rest (c :: acc)

/-- The distinct lowercased words of a pattern string
(`set(pattern.lower().split())` in
`TemporalValidator._pattern_similarity`). -/
def wordSet (s : String) : List String :=
  (((splitWsAux (lowerString s).data []).map String.mk).filter
    fun w => w ≠ "").dedup

/-- `TemporalValidator._pattern_similarity`: Jaccard similarity of the
word sets, 0.0 when either set is empty. -/
def patternSimilarity (p1 p2 : String) : ℚ :=
  let w1 := wordSet p1
  let w2 := wordSet p2
  if w1 = [] ∨ w2 = [] then 0
  else
    let inter := (w1.filter fun w => w2.contains w).length
    let uni := (w1 ++ w2.filter fun w => ! w1.contains w).length
    if 0 < uni then (inter : ℚ) / (uni : ℚ) else 0

/-- The `validated_items` loop of `TemporalValidator.validate`: each
analysis pattern is checked against the successful patterns and the first
one with similarity > 0.7 marks it validated (the loop `break`s). -/
def temporalValidatedItems (pats : List String)
    (succPatterns : List Pattern) : List String :=
  pats.filterMap fun p =>
    (succPatterns.find? fun sp =>
        decide ((7:ℚ)/10 < patternSimilarity p sp.codeTemplate)).map
      fun sp => "Pattern: " ++ sp.name

/-- The issue loop of `TemporalValidator.validate`: every
(analysis pattern, failed pattern) pair with similarity > 0.8 appends one
high-severity `historically_failed_pattern` issue (no `break`). -/
def temporalIssuesOf (pats : List String)
    (failPatterns : List Pattern) : List ValidationIssue :=
  (pats.map fun p =>
    (failPatterns.filter fun fp =>
        decide ((8:ℚ)/10 < patternSimilarity p fp.codeTemplate)).map
      fun fp =>
        { layer := ValidationLayer.temporal
          severity := ValidationSeverity.high
          issueType := "historically_failed_pattern"
          description :=
            "Pattern similar to historically failed: " ++ fp.name
          suggestion :=
            some "Use alternative approach from successful patterns" }).flatten

/-- `TemporalValidator.validate`: the pattern-retrieval calls are the
parameters `succPatterns`/`failPatterns`; the confidence starts at 0.8,
is raised to `min(0.95, 0.8 + 0.1·#validated)` when any successful
pattern was retrieved, and lowered to `max(0.2, · − 0.2·#issues)` when
any issue was raised. -/
def temporalValidate (analysis : Option CodeAnalysis)
    (succPatterns failPatterns : List Pattern) : LayerValidationResult :=
  let vitems := match analysis with
    | none => []
    | some a => temporalValidatedItems a.patterns succPatterns
  let iss := match analysis with
    | none => []
    | some a => temporalIssuesOf a.patterns failPatterns
  let conf0 : ℚ := 8/10
  let conf1 := if succPatterns ≠ [] then
      min (95/100) (conf0 + (vitems.length : ℚ) * (1/10))
    else conf0
  let conf2 := if iss ≠ [] then
      max (2/10) (conf1 - (iss.length : ℚ) * (2/10))
    else conf1
  { layer := ValidationLayer.temporal
    confidence := conf2
    issues := iss
    validatedItems := vitems }

/-- `HallucinationType` enum from detection_engine.py. -/
inductive HallucinationType where
  | nonExistentClass
  | nonExistentMethod
  | nonExistentParameter
  | incorrectImport
  | invalidSignature
  | incorrectUsagePattern
  | mixedFrameworkApis
  | deprecatedApi
deriving DecidableEq, Repr

/-- `Hallucination` dataclass from detection_engine.py. -/
structure Hallucination where
  type : HallucinationType
  description : String
  incorrectUsage : String
  correctUsage : Option String := none
  confidence : ℚ := 1
  lineNumber : Option ℕ := none
  framework : Option String := none
  evidence : List String := []
deriving DecidableEq, Repr

/-- `CorrectionSuggestion` dataclass from detection_engine.py. -/
structure CorrectionSuggestion where
  originalCode : String
  correctedCode : String
  explanation : String
  confidence : ℚ
  validationSources : List String
deriving DecidableEq, Repr

/-- `HallucinationResult` model from detection_engine.py (the
`validation_breakdown` and wall-clock `processing_time` fields are not
needed by the verified properties and are omitted). -/
structure HallucinationResult where
  isHallucination : Bool
  confidenceScore : ℚ
  detectedHallucinations : List Hallucination
  correctedCode : Option String
  correctionSuggestions : List CorrectionSuggestion
deriving DecidableEq, Repr

/-- The finding appended by `_detect_framework_hallucinations` when an
attribute call's method is in the framework rule table's
`invalid_methods` entry for the receiver: a `non_existent_method`
hallucination with confidence 0.98 and the suggested correct method. -/
def invalidMethodFinding (framework objName methodName : String)
    (correctMethod : Option String) (validMethods : List String)
    (line : Option ℕ) : Hallucination :=
  { type := HallucinationType.nonExistentMethod
    description := "Method " ++ objName ++ "." ++ methodName
      ++ " does not exist in " ++ framework
    incorrectUsage := objName ++ "." ++ methodName
    correctUsage := correctMethod.map fun m => objName ++ "." ++ m
    confidence := 98/100
    lineNumber := line
    framework := some framework
    evidence := ["Valid methods for " ++ objName ++ ": "
      ++ String.intercalate ", " validMethods] }

/-- Whether a hallucination counts as critical in
`_calculate_confidence_score` (non-existent class or method). -/
def isCriticalHallucination (h : Hallucination) : Bool :=
  h.type = HallucinationType.nonExistentClass
    || h.type = HallucinationType.nonExistentMethod

/-- `HallucinationDetectionEngine._calculate_confidence_score`: 0.0 when
there are no validation results, otherwise the average of the
per-framework consensus scores minus `min(0.8, 0.2·#hallucinations)`
minus `min(0.5, 0.3·#critical hallucinations)`, floored at 0. -/
def calcConfidenceScore (validationScores : List ℚ)
    (hallucinations : List Hallucination) : ℚ :=
  if validationScores = [] then 0
  else
    let avgValidationConfidence :=
      validationScores.sum / (validationScores.length : ℚ)
    let hallucinationPenalty :=
      min (8/10) ((hallucinations.length : ℚ) * (2/10))
    let criticalPenalty :=
      min (5/10)
        (((hallucinations.filter isCriticalHallucination).length : ℚ)
          * (3/10))
    max 0 (avgValidationConfidence - hallucinationPenalty - criticalPenalty)

/-- The same confidence formula written from the specification's words:
`avg(layer consensus scores across requested frameworks)
 − min(0.8, 0.2×#findings)
 − min(0.5, 0.3×#critical-class-or-method findings)`, floored at 0.
Stated over the number of findings and of critical findings directly. -/
def specConfidenceFormula (validationScores : List ℚ)
    (findings criticalFindings : ℕ) : ℚ :=
  max 0 (validationScores.sum / (validationScores.length : ℚ)
    - min (8/10) ((findings : ℚ) * (2/10))
    - min (5/10) ((criticalFindings : ℚ) * (3/10)))

/-- Python `str.replace(old, new)` on the character list: replace every
non-overlapping occurrence of `old`, scanning left to right.  The fuel is
the length of the remaining input, which each step strictly consumes; an
empty `old` leaves the string unchanged (the detector's
`incorrect_usage` strings are never empty). -/
def replaceAllAux : ℕ → List Char → List Char → List Char → List Char
  | 0, s, _, _ => s
  | _ + 1, [], _, _ => []
  | fuel + 1, c :: rest, old, new =>
      if old ≠ [] ∧ old.isPrefixOf (c :: rest) then
        new ++ replaceAllAux fuel ((c :: rest).drop old.length) old new
      else
        c :: replaceAllAux fuel rest old new

/-- String form of `replaceAllAux`. -/
def pyReplace (s old new : String) : String :=
  String.mk (replaceAllAux s.data.length s.data old.data new.data)

/-- Stable insertion of a hallucination into a confidence-descending
list (Python's stable `sorted(..., key=confidence, reverse=True)`). -/
def insertByConfDesc (h : Hallucination) :
    List Hallucination → List Hallucination
  | [] => [h]
  | a :: rest =>
      if a.confidence ≤ h.confidence then h :: a :: rest
      else a :: insertByConfDesc h rest

/-- `sorted(hallucinations, key=lambda x: x.confidence, reverse=True)`:
stable sort by confidence, highest first. -/
def sortByConfDesc : List Hallucination → List Hallucination
  | [] => []
  | a :: rest => insertByConfDesc a (sortByConfDesc rest)

/-- The substitution loop of
`HallucinationDetectionEngine._generate_corrections`: for each
hallucination (in confidence-descending order) carrying a
`correct_usage`, replace `incorrect_usage → correct_usage` in the
accumulated code; a replacement that changed the code appends one
`CorrectionSuggestion`. -/
def applyCorrections (hallucinations : List Hallucination)
    (code : String) (suggestions : List CorrectionSuggestion) :
    String × List CorrectionSuggestion :=
  match hallucinations with
  | [] => (code, suggestions)
  | h :: rest =>
      match h.correctUsage with
      | none => applyCorrections rest code suggestions
      | some cu =>
          let newCode := pyReplace code h.incorrectUsage cu
          if newCode ≠ code then
            applyCorrections rest newCode (suggestions ++
              [{ originalCode := h.incorrectUsage
                 correctedCode := cu
                 explanation := h.description
                 confidence := h.confidence
                 validationSources := h.evidence }])
          else applyCorrections rest code suggestions

/-- `HallucinationDetectionEngine._generate_corrections`.  The
re-validation run of the Orchestrator on the corrected text is the
parameter `revalidate` (mapping a code string to the resulting
`consensus_score`).  If the substitutions changed the code and the
re-validated consensus score is below 0.8 the corrected code is
discarded (`None`) while the suggestions are kept; if no substitution
changed the code, the accumulated code (equal to the original) is
returned without re-validation. -/
def generateCorrections (originalCode : String)
    (hallucinations : List Hallucination) (revalidate : String → ℚ) :
    Option String × List CorrectionSuggestion :=
  let pr := applyCorrections (sortByConfDesc hallucinations) originalCode []
  if pr.1 ≠ originalCode then
    if revalidate pr.1 < 8/10 then (none, pr.2)
    else (some pr.1, pr.2)
  else (some pr.1, pr.2)

/-- `HallucinationDetectionEngine.detect_hallucination`, steps 6–8 and
the result assembly.  The external computations feeding it are
parameters: `validationScores` are the per-framework orchestrator
consensus scores of step 2, `allHallucinations` the union of the three
detector passes of steps 3–5, `revalidate` the orchestrator run used by
the correction generator.  The hallucination threshold is the
constructor's 0.3 default. -/
def detectHallucination (validationScores : List ℚ)
    (allHallucinations : List Hallucination)
    (generatedCode : String) (revalidate : String → ℚ) :
    HallucinationResult :=
  let confidenceScore := calcConfidenceScore validationScores
    allHallucinations
  let corrections :=
    if allHallucinations ≠ [] ∧ confidenceScore < 3/10 then
      generateCorrections generatedCode allHallucinations revalidate
    else (none, [])
  { isHallucination :=
      decide (0 < allHallucinations.length) && decide (confidenceScore < 3/10)
    confidenceScore := confidenceScore
    detectedHallucinations := allHallucinations
    correctedCode := corrections.1
    correctionSuggestions := corrections.2 }

end AID41

open AID41

/-- Unfolding of `consensusScoreOf` on the six standard layer names:
the total weight is exactly 1, so the score is the plain weighted sum. -/
theorem consensusScoreOf_six (cs ct cd cm cty cc : ℚ) :
    consensusScoreOf
        [("structural", cs), ("temporal", ct), ("documentation", cd),
         ("memory", cm), ("type_safety", cty), ("consensus", cc)]
      = 25/100 * cs + 20/100 * ct + 20/100 * cd + 15/100 * cm
        + 15/100 * cty + 5/100 * cc := by
  simp [consensusScoreOf, layerWeight]
  norm_num
  ring

/-- C1: with all six layers present and each confidence in [0,1], the
orchestrator's consensus score equals the fixed-weight combination
0.25·structural + 0.20·temporal + 0.20·documentation + 0.15·memory +
0.15·type_safety + 0.05·consensus, the weights sum to 1, and the score
lies in [0,1]. -/
theorem c1_consensus_fixed_weights
    (cs ct cd cm cty cc : ℚ)
    (hcs : 0 ≤ cs ∧ cs ≤ 1) (hct : 0 ≤ ct ∧ ct ≤ 1)
    (hcd : 0 ≤ cd ∧ cd ≤ 1) (hcm : 0 ≤ cm ∧ cm ≤ 1)
    (hcty : 0 ≤ cty ∧ cty ≤ 1) (hcc : 0 ≤ cc ∧ cc ≤ 1) :
    AID41.consensusScoreOf
        [("structural", cs), ("temporal", ct), ("documentation", cd),
         ("memory", cm), ("type_safety", cty), ("consensus", cc)]
      = 25/100 * cs + 20/100 * ct + 20/100 * cd + 15/100 * cm
        + 15/100 * cty + 5/100 * cc
    ∧ AID41.layerWeight "structural" + AID41.layerWeight "temporal"
        + AID41.layerWeight "documentation" + AID41.layerWeight "memory"
        + AID41.layerWeight "type_safety" + AID41.layerWeight "consensus" = 1
    ∧ 0 ≤ AID41.consensusScoreOf
        [("structural", cs), ("temporal", ct), ("documentation", cd),
         ("memory", cm), ("type_safety", cty), ("consensus", cc)]
    ∧ AID41.consensusScoreOf
        [("structural", cs), ("temporal", ct), ("documentation", cd),
         ("memory", cm), ("type_safety", cty), ("consensus", cc)] ≤ 1 := by
  obtain ⟨h1, h2⟩ := hcs
  obtain ⟨h3, h4⟩ := hct
  obtain ⟨h5, h6⟩ := hcd
  obtain ⟨h7, h8⟩ := hcm
  obtain ⟨h9, h10⟩ := hcty
  obtain ⟨h11, h12⟩ := hcc
  have hkey := consensusScoreOf_six cs ct cd cm cty cc
  refine ⟨hkey, by simp [AID41.layerWeight]; norm_num, ?_, ?_⟩
  · rw [hkey]; linarith
  · rw [hkey]; linarith

/-- Witness for C1 at concrete confidences (1/2 everywhere). -/
theorem c1_consensus_fixed_weights_witness :
    AID41.consensusScoreOf
        [("structural", (1:ℚ)/2), ("temporal", 1/2), ("documentation", 1/2),
         ("memory", 1/2), ("type_safety", 1/2), ("consensus", 1/2)]
      = 25/100 * (1/2) + 20/100 * (1/2) + 20/100 * (1/2) + 15/100 * (1/2)
        + 15/100 * (1/2) + 5/100 * (1/2)
    ∧ AID41.layerWeight "structural" + AID41.layerWeight "temporal"
        + AID41.layerWeight "documentation" + AID41.layerWeight "memory"
        + AID41.layerWeight "type_safety" + AID41.layerWeight "consensus" = 1
    ∧ 0 ≤ AID41.consensusScoreOf
        [("structural", (1:ℚ)/2), ("temporal", 1/2), ("documentation", 1/2),
         ("memory", 1/2), ("type_safety", 1/2), ("consensus", 1/2)]
    ∧ AID41.consensusScoreOf
        [("structural", (1:ℚ)/2), ("temporal", 1/2), ("documentation", 1/2),
         ("memory", 1/2), ("type_safety", 1/2), ("consensus", 1/2)] ≤ 1 :=
  c1_consensus_fixed_weights (1/2) (1/2) (1/2) (1/2) (1/2) (1/2)
    (by norm_num) (by norm_num) (by norm_num) (by norm_num)
    (by norm_num) (by norm_num)

/-- C3: if a non-consensus layer raises an exception (at either the task
level or inside the validator), the orchestration's recorded result for
that layer has confidence exactly 0.0 and exactly one issue, of severity
critical and issue type `layer_failure` or `validation_error`, and every
other layer's recorded result is exactly the result its own outcome
produces — the failure does not abort or perturb the rest. -/
theorem c3_layer_failure_fails_closed
    (outcomes : List (ValidationLayer × LayerOutcome))
    (l : ValidationLayer) (o : LayerOutcome)
    (hmem : (l, o) ∈ outcomes)
    (hfail : (∃ e, o = .error e) ∨ (∃ e, o = .ok (.error e))) :
    (l, processLayerOutcome l o) ∈ processedResults outcomes
    ∧ (processLayerOutcome l o).confidence = 0
    ∧ (processLayerOutcome l o).issues.length = 1
    ∧ (∀ issue ∈ (processLayerOutcome l o).issues,
        issue.severity = ValidationSeverity.critical ∧
        (issue.issueType = "layer_failure" ∨
         issue.issueType = "validation_error"))
    ∧ ∀ (other : ValidationLayer) (r : LayerValidationResult),
        ((other, Except.ok (Except.ok r)) : ValidationLayer × LayerOutcome)
          ∈ outcomes →
        (other, r) ∈ processedResults outcomes := by
  refine ⟨?_, ?_, ?_, ?_, ?_⟩
  · exact List.mem_map_of_mem _ hmem
  · rcases hfail with ⟨e, he⟩ | ⟨e, he⟩ <;> subst he <;>
      simp [processLayerOutcome, runValidationLayer]
  · rcases hfail with ⟨e, he⟩ | ⟨e, he⟩ <;> subst he <;>
      simp [processLayerOutcome, runValidationLayer]
  · intro issue hiss
    rcases hfail with ⟨e, he⟩ | ⟨e, he⟩ <;> subst he <;>
      simp [processLayerOutcome, runValidationLayer] at hiss <;>
      simp [hiss]
  · intro other r hr
    have : (other, r)
        = (fun p : ValidationLayer × LayerOutcome =>
            (p.1, processLayerOutcome p.1 p.2))
          (other, Except.ok (Except.ok r)) := by
      simp [processLayerOutcome, runValidationLayer]
    rw [this]
    exact List.mem_map_of_mem _ hr

/-- Witness for C3: a concrete run where the temporal layer's validator
raises and the structural layer succeeds. -/
theorem c3_layer_failure_fails_closed_witness :
    let okRes : LayerValidationResult :=
      { layer := .structural, confidence := 1, issues := [],
        validatedItems := ["Agent.run_sync"] }
    let outcomes : List (ValidationLayer × LayerOutcome) :=
      [(.structural, Except.ok (Except.ok okRes)),
       (.temporal, Except.ok (Except.error "boom"))]
    let failOut : LayerOutcome := Except.ok (Except.error "boom")
    (ValidationLayer.temporal, processLayerOutcome .temporal failOut)
        ∈ processedResults outcomes
    ∧ (processLayerOutcome .temporal failOut).confidence = 0
    ∧ (processLayerOutcome .temporal failOut).issues.length = 1
    ∧ (∀ issue ∈ (processLayerOutcome .temporal failOut).issues,
        issue.severity = ValidationSeverity.critical ∧
        (issue.issueType = "layer_failure" ∨
         issue.issueType = "validation_error"))
    ∧ ∀ (other : ValidationLayer) (r : LayerValidationResult),
        ((other, Except.ok (Except.ok r)) : ValidationLayer × LayerOutcome)
          ∈ outcomes →
        (other, r) ∈ processedResults outcomes := by
  intro okRes outcomes failOut
  exact c3_layer_failure_fails_closed outcomes .temporal failOut
    (by simp [outcomes, failOut]) (Or.inr ⟨"boom", rfl⟩)

/-- C7: `update_pattern_usage` increments the usage count by exactly 1 and
returns the new rate `(old_rate*count + outcome) / (count+1)` with outcome
1 for success and 0 for failure; if the old rate is in [0,1] the new rate
is too. -/
theorem c7_update_pattern_usage
    (p : Pattern) (success : Bool)
    (h0 : 0 ≤ p.successRate) (h1 : p.successRate ≤ 1) :
    (updatePatternUsage p success).1.usageCount = p.usageCount + 1
    ∧ (updatePatternUsage p success).2
      = (p.successRate * p.usageCount + (if success then 1 else 0))
        / (p.usageCount + 1)
    ∧ 0 ≤ (updatePatternUsage p success).2
    ∧ (updatePatternUsage p success).2 ≤ 1 := by
  have hc : (0:ℚ) ≤ (p.usageCount : ℚ) := by positivity
  have hcpos : (0:ℚ) < (p.usageCount : ℚ) + 1 := by positivity
  have hnum0 : (0:ℚ) ≤ p.successRate * p.usageCount := by
    exact mul_nonneg h0 hc
  have hnum1 : p.successRate * (p.usageCount : ℚ) ≤ (p.usageCount : ℚ) := by
    calc p.successRate * (p.usageCount : ℚ)
        ≤ 1 * (p.usageCount : ℚ) := by
          exact mul_le_mul_of_nonneg_right h1 hc
      _ = (p.usageCount : ℚ) := one_mul _
  refine ⟨rfl, ?_, ?_, ?_⟩
  · cases success <;> simp [updatePatternUsage]
  · cases success <;> simp [updatePatternUsage] <;> positivity
  · cases success <;> simp only [updatePatternUsage, if_true, if_false,
      Bool.false_eq_true, ite_true, ite_false] <;>
      rw [div_le_one hcpos] <;> linarith

/-- Witness for C7: a pattern with rate 1/2 used 4 times, observed
succeeding. -/
theorem c7_update_pattern_usage_witness :
    let p : Pattern :=
      { id := "p1", name := "agent run", framework := "PydanticAI",
        patternType := "success", codeTemplate := "agent.run_sync(prompt)",
        successRate := 1/2, usageCount := 4 }
    (updatePatternUsage p true).1.usageCount = p.usageCount + 1
    ∧ (updatePatternUsage p true).2
      = (p.successRate * p.usageCount + (if true then 1 else 0))
        / (p.usageCount + 1)
    ∧ 0 ≤ (updatePatternUsage p true).2
    ∧ (updatePatternUsage p true).2 ≤ 1 := by
  intro p
  exact c7_update_pattern_usage p true (by norm_num) (by norm_num)

/-- With no successful patterns retrieved, no analysis pattern is marked
validated. -/
theorem temporalValidatedItems_nil (pats : List String) :
    temporalValidatedItems pats [] = [] := by
  simp [temporalValidatedItems, List.find?]

/-- C8: the Temporal validator's confidence is exactly
`max(0.2, min(0.95, 0.8 + 0.1·k) − 0.2·m)` where `k` is the number of
analysis patterns with similarity > 0.7 to some retrieved success pattern
(first match) and `m` is the number of (pattern, failed-pattern) pairs
with similarity > 0.8 — base 0.8, +0.1 per validated match capped at
0.95, −0.2 per issue floored at 0.2. -/
theorem c8_temporal_confidence (analysis : Option CodeAnalysis)
    (succPatterns failPatterns : List Pattern) :
    (temporalValidate analysis succPatterns failPatterns).confidence
      = max (2/10)
          (min (95/100)
            (8/10 + ((temporalValidate analysis succPatterns
                failPatterns).validatedItems.length : ℚ) * (1/10))
           - ((temporalValidate analysis succPatterns
                failPatterns).issues.length : ℚ) * (2/10)) := by
  rcases analysis with _ | a
  · by_cases hs : succPatterns = [] <;>
      simp [temporalValidate, hs] <;> norm_num
  · by_cases hs : succPatterns = []
    · subst hs
      rw [show temporalValidate (some a) [] failPatterns
          = temporalValidate (some a) [] failPatterns from rfl]
      by_cases hm : temporalIssuesOf a.patterns failPatterns = [] <;>
        simp [temporalValidate, hm, temporalValidatedItems_nil] <;>
        norm_num
    · have hk : (0:ℚ) ≤ ((temporalValidatedItems a.patterns
          succPatterns).length : ℚ) := by positivity
      by_cases hm : temporalIssuesOf a.patterns failPatterns = []
      · simp [temporalValidate, hs, hm]
        refine ⟨by norm_num, by linarith⟩
      · simp [temporalValidate, hs, hm]

/-- C9: a parse failure yields a `CodeAnalysis` with every field empty
(the analyzer catches the exception rather than raising), and the
Structural validator on such an empty analysis — likewise on the analysis
of an empty module, which is what the empty code string parses to —
returns the neutral confidence 0.8 with no issues, for any knowledge-graph
oracle, so the validation call completes. -/
theorem c9_parse_failure_neutral (e : String) (framework : String)
    (apiExists : ApiCall → Bool × Option String) :
    (analyzeCodeStructure (Except.error e)).imports = []
    ∧ (analyzeCodeStructure (Except.error e)).classes = []
    ∧ (analyzeCodeStructure (Except.error e)).methods = []
    ∧ (analyzeCodeStructure (Except.error e)).functionCalls = []
    ∧ (analyzeCodeStructure (Except.error e)).apiCalls = []
    ∧ (analyzeCodeStructure (Except.error e)).frameworks = []
    ∧ (analyzeCodeStructure (Except.error e)).patterns = []
    ∧ (analyzeCodeStructure (Except.error e)).astWalk = none
    ∧ (structuralValidate apiExists framework
        (some (analyzeCodeStructure (Except.error e)))).confidence = 8/10
    ∧ (structuralValidate apiExists framework
        (some (analyzeCodeStructure (Except.error e)))).issues = []
    ∧ (analyzeCodeStructure (Except.ok [AstNode.other])).imports = []
    ∧ (analyzeCodeStructure (Except.ok [AstNode.other])).apiCalls = []
    ∧ (structuralValidate apiExists framework
        (some (analyzeCodeStructure (Except.ok [AstNode.other])))).confidence
        = 8/10
    ∧ (structuralValidate apiExists framework
        (some (analyzeCodeStructure
          (Except.ok [AstNode.other])))).issues = [] := by
  refine ⟨rfl, rfl, rfl, rfl, rfl, rfl, rfl, rfl, ?_, ?_, rfl, rfl, ?_, ?_⟩ <;>
    simp [structuralValidate, analyzeCodeStructure, collectApiCalls,
      collectImports]

/-- C4: the detector flags a hallucination exactly when at least one
hallucination was detected and the overall confidence is strictly below
the 0.3 hallucination threshold; otherwise the result is clean. -/
theorem c4_is_hallucination_iff (validationScores : List ℚ)
    (halls : List Hallucination) (code : String) (revalidate : String → ℚ) :
    (detectHallucination validationScores halls code
        revalidate).isHallucination = true
      ↔ ((detectHallucination validationScores halls code
            revalidate).detectedHallucinations ≠ []
         ∧ (detectHallucination validationScores halls code
              revalidate).confidenceScore < 3/10) := by
  simp [detectHallucination, List.length_pos]

/-- C10: a clean result never carries corrected code — corrections are
generated only under exactly the condition that sets the hallucination
flag. -/
theorem c10_clean_has_no_corrected_code (validationScores : List ℚ)
    (halls : List Hallucination) (code : String) (revalidate : String → ℚ)
    (hclean : (detectHallucination validationScores halls code
        revalidate).isHallucination = false) :
    (detectHallucination validationScores halls code
        revalidate).correctedCode = none := by
  by_cases hcond : halls ≠ []
      ∧ calcConfidenceScore validationScores halls < 3/10
  · obtain ⟨hne, hlt⟩ := hcond
    have hlen : 0 < halls.length := List.length_pos.mpr hne
    simp [detectHallucination, hlen, hlt] at hclean
  · simp [detectHallucination, hcond]

/-- Witness for C10: a detection run with no findings is clean and
carries no corrected code. -/
theorem c10_clean_has_no_corrected_code_witness :
    (detectHallucination [1] [] "agent.run_sync(prompt)"
        (fun _ => 1)).correctedCode = none :=
  c10_clean_has_no_corrected_code [1] [] "agent.run_sync(prompt)"
    (fun _ => 1) (by simp [detectHallucination])

/-- C6: for a non-empty set of per-framework validation results, the
detector's overall confidence matches the specification formula
`avg(consensus scores) − min(0.8, 0.2·#findings)
 − min(0.5, 0.3·#critical findings)` floored at 0, where the critical
findings are exactly those of non-existent-class or non-existent-method
type. -/
theorem c6_confidence_matches_spec_formula (validationScores : List ℚ)
    (halls : List Hallucination) (hne : validationScores ≠ []) :
    calcConfidenceScore validationScores halls
      = specConfidenceFormula validationScores halls.length
          (halls.filter isCriticalHallucination).length := by
  simp [calcConfidenceScore, specConfidenceFormula, hne]

/-- Witness for C6 at a concrete run (one framework score, two findings,
one critical). -/
theorem c6_confidence_matches_spec_formula_witness :
    calcConfidenceScore [9/10]
        [{ type := HallucinationType.nonExistentMethod,
           description := "Method Agent.run_async does not exist",
           incorrectUsage := "agent.run_async" },
         { type := HallucinationType.incorrectUsagePattern,
           description := "Common hallucination pattern",
           incorrectUsage := "agent.chat(" }]
      = specConfidenceFormula [9/10] 2 1 := by
  have h := c6_confidence_matches_spec_formula [9/10]
    [{ type := HallucinationType.nonExistentMethod,
       description := "Method Agent.run_async does not exist",
       incorrectUsage := "agent.run_async" },
     { type := HallucinationType.incorrectUsagePattern,
       description := "Common hallucination pattern",
       incorrectUsage := "agent.chat(" }]
    (by simp)
  simpa [isCriticalHallucination] using h

/-- C5: appending one more `invalid_methods` finding (a
non-existent-method hallucination, as `_detect_framework_hallucinations`
produces for a match against a framework's `invalid_methods` table)
strictly decreases the overall confidence score, or leaves it unchanged
only at the floor 0.0. -/
theorem c5_invalid_method_finding_monotone (validationScores : List ℚ)
    (halls : List Hallucination) (fw obj m : String)
    (cm : Option String) (vms : List String) (ln : Option ℕ)
    (hbound : ∀ s ∈ validationScores, 0 ≤ s ∧ s ≤ 1) :
    calcConfidenceScore validationScores
        (halls ++ [invalidMethodFinding fw obj m cm vms ln])
      < calcConfidenceScore validationScores halls
    ∨ (calcConfidenceScore validationScores
          (halls ++ [invalidMethodFinding fw obj m cm vms ln])
        = calcConfidenceScore validationScores halls
      ∧ calcConfidenceScore validationScores
          (halls ++ [invalidMethodFinding fw obj m cm vms ln]) = 0) := by
  by_cases hvs : validationScores = []
  · right
    constructor <;> simp [calcConfidenceScore, hvs]
  · set f := invalidMethodFinding fw obj m cm vms ln with hf
    set A := validationScores.sum / (validationScores.length : ℚ) with hA
    set n := halls.length with hn
    set k := (halls.filter isCriticalHallucination).length with hk
    have hlenpos : (0:ℚ) < (validationScores.length : ℚ) := by
      exact_mod_cast List.length_pos.mpr hvs
    have havg : A ≤ 1 := by
      rw [hA, div_le_one hlenpos]
      have hs := List.sum_le_card_nsmul validationScores 1
        (fun x hx => (hbound x hx).2)
      simpa using hs
    have hcritf : isCriticalHallucination f = true := by
      simp [hf, invalidMethodFinding, isCriticalHallucination]
    have hnAppend : ((halls ++ [f]).length : ℚ) = (n : ℚ) + 1 := by
      simp [hn]
    have hkAppend :
        (((halls ++ [f]).filter isCriticalHallucination).length : ℚ)
          = (k : ℚ) + 1 := by
      simp [hk, List.filter_append, hcritf]
    set P := min ((8:ℚ)/10) ((n : ℚ) * (2/10))
      + min ((5:ℚ)/10) ((k : ℚ) * (3/10)) with hP
    set Q := min ((8:ℚ)/10) (((n : ℚ) + 1) * (2/10))
      + min ((5:ℚ)/10) (((k : ℚ) + 1) * (3/10)) with hQ
    have hc : calcConfidenceScore validationScores halls = max 0 (A - P) := by
      simp only [calcConfidenceScore, hvs, if_false, hP]
      ring_nf
    have hcNew : calcConfidenceScore validationScores (halls ++ [f])
        = max 0 (A - Q) := by
      simp only [calcConfidenceScore, hvs, if_false, hQ]
      rw [hnAppend, hkAppend]
      ring_nf
    have hn0 : (0:ℚ) ≤ (n : ℚ) := by positivity
    have hk0 : (0:ℚ) ≤ (k : ℚ) := by positivity
    have hmono1 : min ((8:ℚ)/10) ((n : ℚ) * (2/10))
        ≤ min ((8:ℚ)/10) (((n : ℚ) + 1) * (2/10)) :=
      min_le_min le_rfl (by linarith)
    have hmono2 : min ((5:ℚ)/10) ((k : ℚ) * (3/10))
        ≤ min ((5:ℚ)/10) (((k : ℚ) + 1) * (3/10)) :=
      min_le_min le_rfl (by linarith)
    have hPQ : P ≤ Q := by rw [hP, hQ]; exact add_le_add hmono1 hmono2
    have hcap : Q = P → (13:ℚ)/10 ≤ P := by
      intro hEq
      have h1 : min ((8:ℚ)/10) ((n : ℚ) * (2/10))
          = min ((8:ℚ)/10) (((n : ℚ) + 1) * (2/10)) := by
        rw [hP, hQ] at hEq
        linarith
      have h2 : min ((5:ℚ)/10) ((k : ℚ) * (3/10))
          = min ((5:ℚ)/10) (((k : ℚ) + 1) * (3/10)) := by
        rw [hP, hQ] at hEq
        linarith
      have hncap : (8:ℚ)/10 ≤ (n : ℚ) * (2/10) := by
        by_contra hx
        push_neg at hx
        have hlt : min ((8:ℚ)/10) ((n : ℚ) * (2/10))
            < min ((8:ℚ)/10) (((n : ℚ) + 1) * (2/10)) := by
          rw [min_eq_right (le_of_lt hx)]
          exact lt_min hx (by linarith)
        rw [h1] at hlt
        exact lt_irrefl _ hlt
      have hkcap : (5:ℚ)/10 ≤ (k : ℚ) * (3/10) := by
        by_contra hx
        push_neg at hx
        have hlt : min ((5:ℚ)/10) ((k : ℚ) * (3/10))
            < min ((5:ℚ)/10) (((k : ℚ) + 1) * (3/10)) := by
          rw [min_eq_right (le_of_lt hx)]
          exact lt_min hx (by linarith)
        rw [h2] at hlt
        exact lt_irrefl _ hlt
      rw [hP, min_eq_left hncap, min_eq_left hkcap]
      norm_num
    by_cases hlt : calcConfidenceScore validationScores (halls ++ [f])
        < calcConfidenceScore validationScores halls
    · exact Or.inl hlt
    · right
      have hle : calcConfidenceScore validationScores (halls ++ [f])
          ≤ calcConfidenceScore validationScores halls := by
        rw [hc, hcNew]
        exact max_le_max le_rfl (by linarith)
      have hEqc : calcConfidenceScore validationScores (halls ++ [f])
          = calcConfidenceScore validationScores halls :=
        le_antisymm hle (not_lt.mp hlt)
      refine ⟨hEqc, ?_⟩
      by_contra hne0
      have hge : 0 ≤ calcConfidenceScore validationScores (halls ++ [f]) := by
        rw [hcNew]; exact le_max_left _ _
      have hpos : 0 < calcConfidenceScore validationScores (halls ++ [f]) :=
        lt_of_le_of_ne hge (Ne.symm hne0)
      have hxQ : 0 < A - Q := by
        by_contra hxx
        push_neg at hxx
        rw [hcNew, max_eq_left hxx] at hpos
        exact lt_irrefl 0 hpos
      have hvalNew : calcConfidenceScore validationScores (halls ++ [f])
          = A - Q := by
        rw [hcNew, max_eq_right (le_of_lt hxQ)]
      have hxP : 0 < A - P := lt_of_lt_of_le hxQ (by linarith)
      have hvalOld : calcConfidenceScore validationScores halls = A - P := by
        rw [hc, max_eq_right (le_of_lt hxP)]
      have hQP : Q = P := by
        rw [hvalNew, hvalOld] at hEqc
        linarith
      have h13 := hcap hQP
      have hAP : P < A := sub_pos.mp hxP
      have h1A : (1:ℚ) < A :=
        calc (1:ℚ) < 13/10 := by norm_num
          _ ≤ P := h13
          _ < A := hAP
      exact absurd havg (not_le.mpr h1A)

/-- Witness for C5: one framework score 0.9, one prior finding, and the
appended invalid-method finding. -/
theorem c5_invalid_method_finding_monotone_witness :
    calcConfidenceScore [9/10]
        ([{ type := HallucinationType.incorrectUsagePattern,
            description := "Common hallucination pattern",
            incorrectUsage := "agent.chat(" }]
          ++ [invalidMethodFinding "PydanticAI" "agent" "run_async"
                (some "run") ["run", "run_sync", "stream"] none])
      < calcConfidenceScore [9/10]
          [{ type := HallucinationType.incorrectUsagePattern,
             description := "Common hallucination pattern",
             incorrectUsage := "agent.chat(" }]
    ∨ (calcConfidenceScore [9/10]
          ([{ type := HallucinationType.incorrectUsagePattern,
              description := "Common hallucination pattern",
              incorrectUsage := "agent.chat(" }]
            ++ [invalidMethodFinding "PydanticAI" "agent" "run_async"
                  (some "run") ["run", "run_sync", "stream"] none])
        = calcConfidenceScore [9/10]
            [{ type := HallucinationType.incorrectUsagePattern,
               description := "Common hallucination pattern",
               incorrectUsage := "agent.chat(" }]
      ∧ calcConfidenceScore [9/10]
          ([{ type := HallucinationType.incorrectUsagePattern,
              description := "Common hallucination pattern",
              incorrectUsage := "agent.chat(" }]
            ++ [invalidMethodFinding "PydanticAI" "agent" "run_async"
                  (some "run") ["run", "run_sync", "stream"] none]) = 0) :=
  c5_invalid_method_finding_monotone [9/10]
    [{ type := HallucinationType.incorrectUsagePattern,
       description := "Common hallucination pattern",
       incorrectUsage := "agent.chat(" }]
    "PydanticAI" "agent" "run_async" (some "run")
    ["run", "run_sync", "stream"] none
    (by intro s hs; simp at hs; subst hs; norm_num)

/-- C2 counterexample: a detection run whose only finding carries no
`correct_usage` (exactly what the `common_hallucinations` rule-table
matches produce).  No substitution changes the code, so the correction
generator skips re-validation and returns the original code as
`corrected_code`; the orchestrator's score on that code (the
`revalidate` oracle) is 0, far below 0.8.  Hence a non-null
`corrected_code` does not guarantee a re-validation score ≥ 0.8. -/
theorem c2_correction_roundtrip_counterexample :
    (detectHallucination [0]
        [{ type := HallucinationType.incorrectUsagePattern,
           description :=
             "Common hallucination pattern detected: agent.chat(",
           incorrectUsage := "agent.chat(",
           confidence := 92/100,
           framework := some "PydanticAI",
           evidence := ["Known common AI hallucination pattern"] }]
        "agent.chat(hi)" (fun _ => 0)).correctedCode
      = some "agent.chat(hi)"
    ∧ (fun _ => (0:ℚ)) "agent.chat(hi)" < 8/10 := by
  refine ⟨?_, by norm_num⟩
  set h0 : Hallucination :=
    { type := HallucinationType.incorrectUsagePattern,
      description := "Common hallucination pattern detected: agent.chat(",
      incorrectUsage := "agent.chat(",
      confidence := 92/100,
      framework := some "PydanticAI",
      evidence := ["Known common AI hallucination pattern"] } with hh0
  have hconf : calcConfidenceScore [0] [h0] = 0 := by
    simp [calcConfidenceScore, isCriticalHallucination, hh0]
    norm_num [min_def, max_def]
  have happ : applyCorrections [h0] "agent.chat(hi)" []
      = ("agent.chat(hi)", []) := by
    simp [applyCorrections, hh0]
  have hgen : generateCorrections "agent.chat(hi)" [h0] (fun _ => 0)
      = (some "agent.chat(hi)", []) := by
    simp [generateCorrections, sortByConfDesc, insertByConfDesc, happ]
  have hcond : [h0] ≠ ([] : List Hallucination)
      ∧ calcConfidenceScore [0] [h0] < 3/10 :=
    ⟨by simp, by rw [hconf]; norm_num⟩
  simp only [detectHallucination]
  rw [if_pos hcond, hgen]

/-- C2 amended: whenever the returned `corrected_code` is non-null AND
differs from the original code, re-validating it yields a consensus
score ≥ 0.8; when no substitution changed the code, the original code
itself may be returned as `corrected_code` without that guarantee. -/
theorem c2_correction_roundtrip_amended (validationScores : List ℚ)
    (halls : List Hallucination) (originalCode : String)
    (revalidate : String → ℚ) (c : String)
    (hcc : (detectHallucination validationScores halls originalCode
        revalidate).correctedCode = some c)
    (hne : c ≠ originalCode) :
    8/10 ≤ revalidate c := by
  by_cases hcond : halls ≠ []
      ∧ calcConfidenceScore validationScores halls < 3/10
  · have h1 : (detectHallucination validationScores halls originalCode
        revalidate).correctedCode
        = (generateCorrections originalCode halls revalidate).1 := by
      simp only [detectHallucination]
      rw [if_pos hcond]
    rw [h1] at hcc
    unfold generateCorrections at hcc
    by_cases hfin : (applyCorrections (sortByConfDesc halls)
        originalCode []).1 ≠ originalCode
    · rw [if_pos hfin] at hcc
      by_cases hrv : revalidate (applyCorrections (sortByConfDesc halls)
          originalCode []).1 < 8/10
      · rw [if_pos hrv] at hcc
        simp at hcc
      · rw [if_neg hrv] at hcc
        have hfc : (applyCorrections (sortByConfDesc halls)
            originalCode []).1 = c := by simpa using hcc
        rw [hfc] at hrv
        exact not_lt.mp hrv
    · rw [if_neg hfin] at hcc
      push_neg at hfin
      have hfc : (applyCorrections (sortByConfDesc halls)
          originalCode []).1 = c := by simpa using hcc
      exact absurd (hfc ▸ hfin) hne
  · simp only [detectHallucination] at hcc
    rw [if_neg hcond] at hcc
    simp at hcc

/-- Witness for the amended C2: the single finding carries a correct
usage, the substitution changes the code, and the re-validation oracle
returns 1 ≥ 0.8, so the corrected code is kept. -/
theorem c2_correction_roundtrip_amended_witness :
    (detectHallucination [0]
        [{ type := HallucinationType.nonExistentMethod,
           description := "Method a.run_async does not exist in PydanticAI",
           incorrectUsage := "a.run_async",
           correctUsage := some "a.run",
           confidence := 98/100,
           framework := some "PydanticAI" }]
        "a.run_async(q)" (fun _ => 1)).correctedCode = some "a.run(q)"
    ∧ "a.run(q)" ≠ "a.run_async(q)"
    ∧ 8/10 ≤ (fun _ => (1:ℚ)) "a.run(q)" := by
  set hW : Hallucination :=
    { type := HallucinationType.nonExistentMethod,
      description := "Method a.run_async does not exist in PydanticAI",
      incorrectUsage := "a.run_async",
      correctUsage := some "a.run",
      confidence := 98/100,
      framework := some "PydanticAI" } with hhW
  have hconf : calcConfidenceScore [0] [hW] = 0 := by
    simp [calcConfidenceScore, isCriticalHallucination, hhW]
    norm_num [min_def, max_def]
  have hrep : pyReplace "a.run_async(q)" "a.run_async" "a.run"
      = "a.run(q)" := by decide
  have happ : (applyCorrections [hW] "a.run_async(q)" []).1
      = "a.run(q)" := by
    simp [applyCorrections, hhW, hrep]
  have hgen : (generateCorrections "a.run_async(q)" [hW] (fun _ => 1)).1
      = some "a.run(q)" := by
    simp only [generateCorrections, sortByConfDesc, insertByConfDesc]
    rw [happ, if_pos (by decide : ("a.run(q)" : String) ≠ "a.run_async(q)"),
      if_neg (by norm_num : ¬ ((1:ℚ) < 8/10))]
  have hcond : [hW] ≠ ([] : List Hallucination)
      ∧ calcConfidenceScore [0] [hW] < 3/10 :=
    ⟨by simp, by rw [hconf]; norm_num⟩
  have hEval : (detectHallucination [0] [hW] "a.run_async(q)"
      (fun _ => 1)).correctedCode = some "a.run(q)" := by
    simp only [detectHallucination]
    rw [if_pos hcond, hgen]
  refine ⟨hEval, by decide, ?_⟩
  exact c2_correction_roundtrip_amended [0] [hW] "a.run_async(q)"
    (fun _ => 1) "a.run(q)" hEval (by decide)
